import Mathlib

/-!
Shallow embedding of the HushLane central API (src/main.py) and its offline
license generator (src/generate_license.py).

The SQLite store is modelled as explicit lists of rows; timestamps are
natural numbers (seconds); the fallible `UPDATE licenses SET last_validated`
write inside `validate_license`'s try/except block is modelled by a Boolean
parameter saying whether that write succeeds.
-/

/-- A row of the `licenses` table (schema in `init_db`, src/main.py).
`created_at` has SQLite default CURRENT_TIMESTAMP; `expires_at` and
`last_validated` are nullable timestamps, modelled as `Option Nat`. -/
structure License where
  license_key : String
  customer_id : String
  customer_name : String
  plan : String
  status : String
  created_at : Nat
  expires_at : Option Nat
  last_validated : Option Nat
deriving Repr, DecidableEq

/-- Request body of `POST /license/validate` (pydantic model `LicenseValidation`). -/
structure LicenseValidation where
  license_key : String
  customer_id : String
  app_version : String
  timestamp : String
deriving Repr, DecidableEq

/-- The JSON responses `validate_license` can produce: the four 401 error
bodies (each carrying the data interpolated into its message), the 200
success payload, and the 500 body produced by the `except Exception`
handler (error code VALIDATION_ERROR). -/
inductive ValidateResponse where
  | invalidLicense : ValidateResponse
  | licenseInactive : String → ValidateResponse
  | licenseExpired : Nat → ValidateResponse
  | customerMismatch : ValidateResponse
  | success : String → String → Option Nat → ValidateResponse
  | validationError : ValidateResponse
deriving Repr, DecidableEq

/-- HTTP status code attached to each response in src/main.py:
`JSONResponse(status_code=401, ...)` for the four validation errors,
`status_code=500` in the exception handler, FastAPI's default 200 for the
plain-dict success return. -/
def responseStatus : ValidateResponse → Nat
  | .success _ _ _ => 200
  | .validationError => 500
  | _ => 401

/-- The `UPDATE licenses SET last_validated = ? WHERE license_key = ?`
statement (src/main.py lines 300-304). -/
def setLastValidated (licenses : List License) (key : String) (now : Nat) :
    List License :=
  licenses.map fun l =>
    if l.license_key == key then { l with last_validated := some now } else l

/-- Tail of `validate_license` after the expiry check: the customer-id
match check, then the last_validated write and success return.  If the
write raises (`writeOk = false`), control reaches the `except Exception`
handler, which returns the 500 VALIDATION_ERROR body; the uncommitted
transaction is rolled back when the connection closes, so the store is
unchanged. -/
def validate_customer_and_update (licenses : List License) (lic : License)
    (v : LicenseValidation) (now : Nat) (writeOk : Bool) :
    ValidateResponse × List License :=
  if lic.customer_id ≠ v.customer_id then
    (.customerMismatch, licenses)
  else if writeOk then
    (.success lic.customer_name lic.plan lic.expires_at,
     setLastValidated licenses v.license_key now)
  else
    (.validationError, licenses)

/-- Handler of `POST /license/validate` (src/main.py lines 238-324):
look up the key, then check status, then expiry, then customer id, in that
order, returning at the first failure; on full success update
`last_validated` and return the success payload built from the row read
before the update.  `now` is `datetime.now()`; `writeOk` says whether the
last_validated write succeeds (see `validate_customer_and_update`). -/
def validate_license (licenses : List License) (v : LicenseValidation)
    (now : Nat) (writeOk : Bool) : ValidateResponse × List License :=
  match licenses.find? (fun l => l.license_key == v.license_key) with
  | none => (.invalidLicense, licenses)
  | some lic =>
    if lic.status ≠ "active" then
      (.licenseInactive lic.status, licenses)
    else
      match lic.expires_at with
      | some e =>
        if now > e then (.licenseExpired e, licenses)
        else validate_customer_and_update licenses lic v now writeOk
      | none => validate_customer_and_update licenses lic v now writeOk

/-- A row of the `customer_instances` table.  `first_seen` has SQLite
default CURRENT_TIMESTAMP (only the insert path lets the default fire);
`last_heartbeat` stores the caller-supplied timestamp string. -/
structure CustomerInstance where
  customer_id : String
  version : String
  url : String
  health_status : String
  last_heartbeat : String
  first_seen : Nat
  total_users : Int
  total_messages : Int
deriving Repr, DecidableEq

/-- A row of the append-only `version_history` table (the autoincrement id
and the CURRENT_TIMESTAMP `updated_at` column are set by SQLite and carry
no information the claims need). -/
structure VersionHistoryEntry where
  customer_id : String
  old_version : String
  new_version : String
deriving Repr, DecidableEq

/-- Request body of `POST /instances/register` (pydantic model
`InstanceRegistration`; the integer gauges default to 0 at the HTTP layer). -/
structure InstanceRegistration where
  customer_id : String
  version : String
  url : String
  health : String
  timestamp : String
  total_users : Int
  total_messages : Int
deriving Repr, DecidableEq

/-- The two tables touched by `register_instance`. -/
structure RegistryState where
  instances : List CustomerInstance
  version_history : List VersionHistoryEntry
deriving Repr, DecidableEq

/-- Handler of `POST /instances/register` (src/main.py lines 119-179):
SELECT the existing row's version; if a row exists, UPDATE the six
overwrite fields in place and INSERT one version_history row when the
stored version differs from the submitted one; otherwise INSERT a fresh
row (whose `first_seen` SQLite fills with the current timestamp `now`). -/
def register_instance (s : RegistryState) (r : InstanceRegistration)
    (now : Nat) : RegistryState :=
  match s.instances.find? (fun i => i.customer_id == r.customer_id) with
  | some row =>
    let old_version := row.version
    let instances := s.instances.map fun i =>
      if i.customer_id == r.customer_id then
        { i with version := r.version, url := r.url, health_status := r.health,
                 last_heartbeat := r.timestamp, total_users := r.total_users,
                 total_messages := r.total_messages }
      else i
    let history :=
      if old_version ≠ r.version then
        s.version_history ++ [⟨r.customer_id, old_version, r.version⟩]
      else s.version_history
    ⟨instances, history⟩
  | none =>
    ⟨s.instances ++
       [⟨r.customer_id, r.version, r.url, r.health, r.timestamp, now,
         r.total_users, r.total_messages⟩],
     s.version_history⟩

/-- Uppercase hexadecimal digit of a value below 16, as produced by
`secrets.token_hex(...).upper()`. -/
def hexDigitUpper (n : Nat) : Char :=
  if n < 10 then Char.ofNat (48 + n) else Char.ofNat (55 + n)

/-- The two uppercase hex digits one byte contributes to a token. -/
def byteHexUpper (b : Nat) : List Char :=
  [hexDigitUpper (b / 16), hexDigitUpper (b % 16)]

/-- Models `secrets.token_hex(nbytes).upper()` applied to the `nbytes`
random bytes actually drawn: each byte becomes two uppercase hex digits. -/
def token_hex_upper (bytes : List Nat) : String :=
  String.mk ((bytes.map byteHexUpper).flatten)

/-- `generate_license_key` (src/generate_license.py lines 12-16):
`parts = [secrets.token_hex(4).upper() for _ in range(4)]` then
`f"HL-{'-'.join(parts)}"`.  The four independent 4-byte draws of the
random source are passed explicitly. -/
def generate_license_key (d1 d2 d3 d4 : List Nat) : String :=
  "HL-" ++ String.intercalate "-"
    [token_hex_upper d1, token_hex_upper d2, token_hex_upper d3,
     token_hex_upper d4]

/-- Outcome of `create_license`: the early-return-None path after the
duplicate-customer diagnostic print (carrying the existing key it prints),
or the committed insert returning the new key. -/
inductive CreateLicenseResult where
  | duplicateCustomer : String → CreateLicenseResult
  | created : String → CreateLicenseResult
deriving Repr, DecidableEq

/-- `create_license` (src/generate_license.py lines 19-92): if the
customer already has a license row, print the error and return without
touching the store; otherwise compute `expires_at` (`None` unless `months`
is truthy, i.e. a non-None non-zero int, in which case
`now + timedelta(days=months*30)`, a day being 86400 seconds) and INSERT
one row with status 'active'.  `new_key` is the key obtained from
`generate_license_key()`; `now` is `datetime.now()`. -/
def create_license (licenses : List License)
    (customer_id customer_name plan : String) (months : Option Nat)
    (now : Nat) (new_key : String) : CreateLicenseResult × List License :=
  match licenses.find? (fun l => l.customer_id == customer_id) with
  | some existing => (.duplicateCustomer existing.license_key, licenses)
  | none =>
    let expires_at : Option Nat :=
      match months with
      | some m => if m ≠ 0 then some (now + m * 30 * 86400) else none
      | none => none
    (.created new_key,
     licenses ++
       [⟨new_key, customer_id, customer_name, plan, "active", now,
         expires_at, none⟩])

/-- Python default value of `create_license`'s `months` parameter
(`months=12` in the def line): what a call that omits the duration uses. -/
def create_license_months_default : Option Nat := some 12

/-- The CLI's translation of `--months` (src/generate_license.py line 162):
`months = None if args.months == 0 else args.months`. -/
def cli_months (args_months : Nat) : Option Nat :=
  if args_months == 0 then none else some args_months

/-- Basic-auth credentials as handed to the dependency by FastAPI. -/
structure HTTPBasicCredentials where
  username : String
  password : String
deriving Repr, DecidableEq

/-- Outcome of `verify_master_admin`: the returned username, or the
raised `HTTPException(status_code, detail, headers)` with the value of its
WWW-Authenticate header. -/
inductive AuthResult where
  | ok : String → AuthResult
  | httpError : Nat → String → String → AuthResult
deriving Repr, DecidableEq

/-- `secrets.compare_digest` on strings: constant-time equality test;
functionally it is string equality. -/
def compare_digest (a b : String) : Bool := a == b

/-- `verify_master_admin` (src/main.py lines 182-193): compare the
supplied username and password against the configured
MASTER_ADMIN_USERNAME / MASTER_ADMIN_PASSWORD; if not both equal, raise
HTTP 401 with detail "Incorrect credentials" and a
`WWW-Authenticate: Basic` header, else return the username. -/
def verify_master_admin (adminUsername adminPassword : String)
    (credentials : HTTPBasicCredentials) : AuthResult :=
  let correct_username := compare_digest credentials.username adminUsername
  let correct_password := compare_digest credentials.password adminPassword
  if !(correct_username && correct_password) then
    .httpError 401 "Incorrect credentials" "Basic"
  else
    .ok credentials.username

/-! Concrete sample rows and requests used to exercise the handlers. -/

/-- A validation request whose key is in no store used below. -/
def reqUnknown : LicenseValidation := ⟨"HL-NOPE", "acme", "1.0.0", "t"⟩

/-- A revoked license that is also expired and bound to customer `acme`. -/
def licRevoked : License :=
  ⟨"HL-R", "acme", "Acme Corp", "standard", "revoked", 0, some 10, none⟩

/-- A request for `licRevoked`'s key from the wrong customer. -/
def reqRevoked : LicenseValidation := ⟨"HL-R", "other", "1.0.0", "t"⟩

/-- An active license expiring at time 10, bound to customer `acme`. -/
def licExpiring : License :=
  ⟨"HL-E", "acme", "Acme Corp", "pro", "active", 0, some 10, none⟩

/-- A request for `licExpiring`'s key from the wrong customer. -/
def reqExpiring : LicenseValidation := ⟨"HL-E", "other", "1.0.0", "t"⟩

/-- An active perpetual license bound to customer `acme`. -/
def licPerpetual : License :=
  ⟨"HL-P", "acme", "Acme Corp", "enterprise", "active", 0, none, none⟩

/-- A request for `licPerpetual`'s key from the wrong customer. -/
def reqWrongCustomer : LicenseValidation := ⟨"HL-P", "other", "1.0.0", "t"⟩

/-- A request for `licPerpetual`'s key from its own customer. -/
def reqPerpetual : LicenseValidation := ⟨"HL-P", "acme", "1.0.0", "t"⟩

/-- An active license expiring at time 100 with an old last_validated. -/
def licOK : License :=
  ⟨"HL-OK", "acme", "Acme Corp", "standard", "active", 0, some 100, some 1⟩

/-- A fully matching request for `licOK`. -/
def reqOK : LicenseValidation := ⟨"HL-OK", "acme", "1.0.0", "t"⟩

/-- An instance row for customer `acme` at version 1.0.0. -/
def inst0 : CustomerInstance :=
  ⟨"acme", "1.0.0", "https://acme.example", "healthy", "t0", 3, 5, 7⟩

/-- An instance row for an unrelated customer `beta`. -/
def instOther : CustomerInstance :=
  ⟨"beta", "0.9.0", "https://beta.example", "degraded", "t0", 1, 2, 3⟩

/-- A heartbeat for `acme` reporting the version already stored. -/
def regSame : InstanceRegistration :=
  ⟨"acme", "1.0.0", "https://acme2.example", "degraded", "t1", 6, 8⟩

/-- A heartbeat for `acme` reporting a new version 1.1.0. -/
def regNew : InstanceRegistration :=
  ⟨"acme", "1.1.0", "https://acme2.example", "healthy", "t1", 6, 8⟩

/-- A first heartbeat from a brand-new customer `gamma`. -/
def regFresh : InstanceRegistration :=
  ⟨"gamma", "1.0.0", "https://gamma.example", "healthy", "t2", 0, 0⟩

/-- A registry holding `instOther` and `inst0` and no history. -/
def regState0 : RegistryState := ⟨[instOther, inst0], []⟩

/-- C1: validate_license performs its checks in the fixed fail-fast order
— key lookup, then status, then expiry, then customer-id match — and
returns the error code of the first failing check with HTTP 401: unknown
key gives INVALID_LICENSE; a found license with status other than active
gives LICENSE_INACTIVE regardless of expiry or customer id; an active
license with a set expiry in the past gives LICENSE_EXPIRED regardless of
customer id; an active unexpired license with the wrong customer id gives
CUSTOMER_MISMATCH. -/
theorem validate_license_failfast_order (licenses : List License)
    (v : LicenseValidation) (now : Nat) (writeOk : Bool) :
    (licenses.find? (fun l => l.license_key == v.license_key) = none →
      validate_license licenses v now writeOk = (.invalidLicense, licenses) ∧
      responseStatus (validate_license licenses v now writeOk).1 = 401) ∧
    (∀ lic, licenses.find? (fun l => l.license_key == v.license_key) = some lic →
      lic.status ≠ "active" →
      validate_license licenses v now writeOk
        = (.licenseInactive lic.status, licenses) ∧
      responseStatus (validate_license licenses v now writeOk).1 = 401) ∧
    (∀ lic e, licenses.find? (fun l => l.license_key == v.license_key) = some lic →
      lic.status = "active" → lic.expires_at = some e → now > e →
      validate_license licenses v now writeOk = (.licenseExpired e, licenses) ∧
      responseStatus (validate_license licenses v now writeOk).1 = 401) ∧
    (∀ lic, licenses.find? (fun l => l.license_key == v.license_key) = some lic →
      lic.status = "active" → (∀ e, lic.expires_at = some e → ¬ now > e) →
      lic.customer_id ≠ v.customer_id →
      validate_license licenses v now writeOk = (.customerMismatch, licenses) ∧
      responseStatus (validate_license licenses v now writeOk).1 = 401) := by
  refine ⟨?_, ?_, ?_, ?_⟩
  · intro h
    simp [validate_license, h, responseStatus]
  · intro lic h hst
    simp [validate_license, h, hst, responseStatus]
  · intro lic e h hst hexp hnow
    simp [validate_license, h, hst, hexp, hnow, responseStatus]
  · intro lic h hst hexp hcust
    cases he : lic.expires_at with
    | none =>
      simp [validate_license, h, hst, he, validate_customer_and_update,
            hcust, responseStatus]
    | some e =>
      have hne := hexp e he
      simp [validate_license, h, hst, he, hne,
            validate_customer_and_update, hcust, responseStatus]

/-- Witness for C1: the four error outcomes at concrete stores and
requests (the inactive and expired cases use a mismatched customer id and,
for the inactive case, a past expiry, exhibiting the claimed precedence). -/
theorem validate_license_failfast_order_witness :
    validate_license [] reqUnknown 0 true = (.invalidLicense, []) ∧
    validate_license [licRevoked] reqRevoked 99 true
      = (.licenseInactive "revoked", [licRevoked]) ∧
    validate_license [licExpiring] reqExpiring 11 true
      = (.licenseExpired 10, [licExpiring]) ∧
    validate_license [licPerpetual] reqWrongCustomer 5 true
      = (.customerMismatch, [licPerpetual]) := by
  refine ⟨?_, ?_, ?_, ?_⟩
  · exact ((validate_license_failfast_order [] reqUnknown 0 true).1 rfl).1
  · exact ((validate_license_failfast_order [licRevoked] reqRevoked 99
      true).2.1 licRevoked rfl (by decide)).1
  · exact ((validate_license_failfast_order [licExpiring] reqExpiring 11
      true).2.2.1 licExpiring 10 rfl rfl rfl (by decide)).1
  · exact ((validate_license_failfast_order [licPerpetual] reqWrongCustomer
      5 true).2.2.2 licPerpetual rfl rfl
      (fun e he => by simp [licPerpetual] at he) (by decide)).1

/-- C2 counterexample: all four checks pass for `licPerpetual` and
`reqPerpetual`, yet when the last_validated write fails the handler's
`except Exception` path returns the 500 VALIDATION_ERROR body, not the
success payload — the returned result does depend on the write. -/
theorem validate_license_write_failure_counterexample :
    (validate_license [licPerpetual] reqPerpetual 5 false).1
      = ValidateResponse.validationError ∧
    (validate_license [licPerpetual] reqPerpetual 5 false).1
      ≠ ValidateResponse.success "Acme Corp" "enterprise" none ∧
    responseStatus (validate_license [licPerpetual] reqPerpetual 5 false).1
      = 500 := by
  exact ⟨rfl, by decide, rfl⟩

/-- C2 as amended: when all four checks pass the result does depend on
the last_validated write — if the write raises, the exception handler
returns HTTP 500 VALIDATION_ERROR (leaving the store unchanged, the
transaction never being committed); the success payload is returned
exactly when the write succeeds. -/
theorem validate_license_write_required (licenses : List License)
    (v : LicenseValidation) (now : Nat) (lic : License) :
    licenses.find? (fun l => l.license_key == v.license_key) = some lic →
    lic.status = "active" →
    (∀ e, lic.expires_at = some e → ¬ now > e) →
    lic.customer_id = v.customer_id →
    (validate_license licenses v now false).1
      = ValidateResponse.validationError ∧
    responseStatus (validate_license licenses v now false).1 = 500 ∧
    (validate_license licenses v now false).2 = licenses ∧
    (validate_license licenses v now true).1
      = ValidateResponse.success lic.customer_name lic.plan lic.expires_at := by
  intro h hst hexp hcust
  cases he : lic.expires_at with
  | none =>
    simp [validate_license, h, hst, he, validate_customer_and_update,
          hcust, responseStatus]
  | some e =>
    have hne := hexp e he
    simp [validate_license, h, hst, he, hne,
          validate_customer_and_update, hcust, responseStatus]

/-- Witness for the amended C2: at the concrete passing scenario the
failed write gives VALIDATION_ERROR and the successful write gives the
success payload. -/
theorem validate_license_write_required_witness :
    (validate_license [licOK] reqOK 5 false).1
      = ValidateResponse.validationError ∧
    (validate_license [licOK] reqOK 5 true).1
      = ValidateResponse.success "Acme Corp" "standard" (some 100) := by
  have h := validate_license_write_required [licOK] reqOK 5 licOK rfl rfl
    (fun e he => by simp [licOK] at he; omega) rfl
  exact ⟨h.1, h.2.2.2⟩

/-- The last_validated UPDATE preserves the number of license rows. -/
theorem setLastValidated_length (licenses : List License) (key : String)
    (now : Nat) : (setLastValidated licenses key now).length = licenses.length :=
  List.length_map licenses _

/-- Row-level effect of the last_validated UPDATE: a row whose key
matches gets last_validated overwritten, every other row is untouched. -/
theorem setLastValidated_getElem (licenses : List License) (key : String)
    (now : Nat) (k : Nat) (hk : k < licenses.length) :
    ((licenses.get ⟨k, hk⟩).license_key = key →
      (setLastValidated licenses key now)[k]?
        = some { licenses.get ⟨k, hk⟩ with last_validated := some now }) ∧
    ((licenses.get ⟨k, hk⟩).license_key ≠ key →
      (setLastValidated licenses key now)[k]?
        = some (licenses.get ⟨k, hk⟩)) := by
  constructor <;> intro hkey <;>
    simp only [List.get_eq_getElem] at hkey <;>
    simp [setLastValidated, List.getElem?_map, List.getElem?_eq_getElem hk,
          hkey]

/-- C6: when all four checks pass (and the write goes through),
validate_license answers 200 with the success payload taken from the
stored row and sets that row's last_validated to the current time,
leaving every other row unchanged. -/
theorem validate_license_success_payload (licenses : List License)
    (v : LicenseValidation) (now : Nat) (lic : License) :
    licenses.find? (fun l => l.license_key == v.license_key) = some lic →
    lic.status = "active" →
    (∀ e, lic.expires_at = some e → ¬ now > e) →
    lic.customer_id = v.customer_id →
    (validate_license licenses v now true).1
      = ValidateResponse.success lic.customer_name lic.plan lic.expires_at ∧
    responseStatus (validate_license licenses v now true).1 = 200 ∧
    (validate_license licenses v now true).2.length = licenses.length ∧
    ∀ k, (hk : k < licenses.length) →
      ((licenses.get ⟨k, hk⟩).license_key = v.license_key →
        (validate_license licenses v now true).2[k]?
          = some { licenses.get ⟨k, hk⟩ with last_validated := some now }) ∧
      ((licenses.get ⟨k, hk⟩).license_key ≠ v.license_key →
        (validate_license licenses v now true).2[k]?
          = some (licenses.get ⟨k, hk⟩)) := by
  intro h hst hexp hcust
  have hsnd : (validate_license licenses v now true).2
      = setLastValidated licenses v.license_key now := by
    cases he : lic.expires_at with
    | none =>
      simp [validate_license, h, hst, he, validate_customer_and_update, hcust]
    | some e =>
      have hne := hexp e he
      simp [validate_license, h, hst, he, hne,
            validate_customer_and_update, hcust]
  have hfst : (validate_license licenses v now true).1
      = ValidateResponse.success lic.customer_name lic.plan lic.expires_at := by
    cases he : lic.expires_at with
    | none =>
      simp [validate_license, h, hst, he, validate_customer_and_update, hcust]
    | some e =>
      have hne := hexp e he
      simp [validate_license, h, hst, he, hne,
            validate_customer_and_update, hcust]
  refine ⟨hfst, by rw [hfst]; rfl, ?_, ?_⟩
  · rw [hsnd]; exact setLastValidated_length licenses v.license_key now
  · intro k hk
    rw [hsnd]
    exact setLastValidated_getElem licenses v.license_key now k hk

/-- Witness for C6: validating `licOK` with its own customer id at time 5
returns the success payload and stamps last_validated with 5. -/
theorem validate_license_success_payload_witness :
    (validate_license [licOK] reqOK 5 true).1
      = ValidateResponse.success "Acme Corp" "standard" (some 100) ∧
    (validate_license [licOK] reqOK 5 true).2[0]?
      = some ⟨"HL-OK", "acme", "Acme Corp", "standard", "active", 0,
              some 100, some 5⟩ := by
  have h := validate_license_success_payload [licOK] reqOK 5 licOK rfl rfl
    (fun e he => by simp [licOK] at he; omega) rfl
  exact ⟨h.1, ((h.2.2.2 0 (by decide)).1 rfl).trans rfl⟩

/-- C7: whenever validate_license answers one of the 401 error bodies,
the licenses table — in particular the looked-up row and its
last_validated field — is returned unchanged. -/
theorem validate_license_error_frame (licenses : List License)
    (v : LicenseValidation) (now : Nat) (writeOk : Bool) :
    responseStatus (validate_license licenses v now writeOk).1 = 401 →
    (validate_license licenses v now writeOk).2 = licenses := by
  intro h401
  cases hf : licenses.find? (fun l => l.license_key == v.license_key) with
  | none => simp [validate_license, hf]
  | some lic =>
    by_cases hst : lic.status = "active"
    · cases he : lic.expires_at with
      | some e =>
        by_cases hn : now > e
        · simp [validate_license, hf, hst, he, hn]
        · by_cases hc : lic.customer_id = v.customer_id
          · cases writeOk with
            | false =>
              simp [validate_license, hf, hst, he, hn,
                    validate_customer_and_update, hc]
            | true =>
              exfalso
              simp [validate_license, hf, hst, he, hn,
                    validate_customer_and_update, hc, responseStatus] at h401
          · simp [validate_license, hf, hst, he, hn,
                  validate_customer_and_update, hc]
      | none =>
        by_cases hc : lic.customer_id = v.customer_id
        · cases writeOk with
          | false =>
            simp [validate_license, hf, hst, he,
                  validate_customer_and_update, hc]
          | true =>
            exfalso
            simp [validate_license, hf, hst, he,
                  validate_customer_and_update, hc, responseStatus] at h401
        · simp [validate_license, hf, hst, he,
                validate_customer_and_update, hc]
    · simp [validate_license, hf, hst]

/-- Witness for C7: a revoked license queried with the wrong customer id
yields a 401 and the store comes back exactly as it went in. -/
theorem validate_license_error_frame_witness :
    (validate_license [licRevoked] reqRevoked 99 true).2 = [licRevoked] :=
  validate_license_error_frame [licRevoked] reqRevoked 99 true rfl

/-- C5: on re-registration with an unchanged version no version_history
row is inserted; with a changed version exactly one row is appended,
recording the stored version as old and the submitted one as new; a
first-time registration inserts no history row. -/
theorem register_instance_version_history (s : RegistryState)
    (r : InstanceRegistration) (now : Nat) :
    (∀ row, s.instances.find? (fun i => i.customer_id == r.customer_id)
        = some row →
      (row.version = r.version →
        (register_instance s r now).version_history = s.version_history) ∧
      (row.version ≠ r.version →
        (register_instance s r now).version_history
          = s.version_history ++ [⟨r.customer_id, row.version, r.version⟩])) ∧
    (s.instances.find? (fun i => i.customer_id == r.customer_id) = none →
      (register_instance s r now).version_history = s.version_history) := by
  constructor
  · intro row hf
    constructor <;> intro hv <;> simp [register_instance, hf, hv]
  · intro hf
    simp [register_instance, hf]

/-- Witness for C5: re-registering `acme` at its stored version 1.0.0
appends nothing; registering version 1.1.0 appends the single transition
row; a first heartbeat from `gamma` appends nothing. -/
theorem register_instance_version_history_witness :
    (register_instance regState0 regSame 9).version_history = [] ∧
    (register_instance regState0 regNew 9).version_history
      = [⟨"acme", "1.0.0", "1.1.0"⟩] ∧
    (register_instance regState0 regFresh 9).version_history = [] := by
  refine ⟨?_, ?_, ?_⟩
  · exact ((register_instance_version_history regState0 regSame 9).1
      inst0 rfl).1 rfl
  · exact ((register_instance_version_history regState0 regNew 9).1
      inst0 rfl).2 (by decide)
  · exact (register_instance_version_history regState0 regFresh 9).2 rfl

/-- C8: re-registering an existing customer rewrites only the six
overwrite fields of that customer's row — the record-update equality below
leaves `customer_id` and `first_seen` at their stored values — and every
row with a different customer_id is returned untouched. -/
theorem register_instance_update_frame (s : RegistryState)
    (r : InstanceRegistration) (now : Nat) (row : CustomerInstance) :
    s.instances.find? (fun i => i.customer_id == r.customer_id) = some row →
    (register_instance s r now).instances.length = s.instances.length ∧
    ∀ k, (hk : k < s.instances.length) →
      ((s.instances.get ⟨k, hk⟩).customer_id ≠ r.customer_id →
        (register_instance s r now).instances[k]?
          = some (s.instances.get ⟨k, hk⟩)) ∧
      ((s.instances.get ⟨k, hk⟩).customer_id = r.customer_id →
        (register_instance s r now).instances[k]?
          = some { s.instances.get ⟨k, hk⟩ with
                   version := r.version, url := r.url,
                   health_status := r.health, last_heartbeat := r.timestamp,
                   total_users := r.total_users,
                   total_messages := r.total_messages }) := by
  intro hf
  have hinst : (register_instance s r now).instances
      = s.instances.map (fun i =>
          if i.customer_id == r.customer_id then
            { i with version := r.version, url := r.url,
                     health_status := r.health, last_heartbeat := r.timestamp,
                     total_users := r.total_users,
                     total_messages := r.total_messages }
          else i) := by
    simp [register_instance, hf]
  refine ⟨by rw [hinst]; exact List.length_map _ _, ?_⟩
  intro k hk
  constructor <;> intro hkey <;>
    simp only [List.get_eq_getElem] at hkey <;>
    rw [hinst] <;>
    simp [List.getElem?_map, List.getElem?_eq_getElem hk, hkey]

/-- Witness for C8: after `regNew`, customer `beta`'s row is unchanged
and `acme`'s row keeps first_seen = 3 while the six overwrite fields take
the submitted values. -/
theorem register_instance_update_frame_witness :
    (register_instance regState0 regNew 9).instances[0]? = some instOther ∧
    (register_instance regState0 regNew 9).instances[1]?
      = some ⟨"acme", "1.1.0", "https://acme2.example", "healthy", "t1",
              3, 6, 8⟩ := by
  have h := register_instance_update_frame regState0 regNew 9 inst0 rfl
  exact ⟨(h.2 0 (by decide)).1 (by decide), (h.2 1 (by decide)).2 rfl⟩

/-- C4: create_license for a customer that already has a license row
returns the duplicate-customer outcome (printing that customer's existing
key) and hands the store back exactly as it was: no row inserted, no row
altered. -/
theorem create_license_duplicate (licenses : List License)
    (customer_id customer_name plan : String) (months : Option Nat)
    (now : Nat) (new_key : String) (existing : License) :
    licenses.find? (fun l => l.customer_id == customer_id) = some existing →
    create_license licenses customer_id customer_name plan months now new_key
      = (.duplicateCustomer existing.license_key, licenses) := by
  intro hf
  simp [create_license, hf]

/-- Witness for C4: a second license for `acme` is refused and the store
comes back as the unchanged one-row list. -/
theorem create_license_duplicate_witness :
    create_license [licOK] "acme" "Acme Corp" "standard" (some 12) 50 "HL-NEW"
      = (.duplicateCustomer "HL-OK", [licOK]) :=
  create_license_duplicate [licOK] "acme" "Acme Corp" "standard" (some 12)
    50 "HL-NEW" licOK rfl

/-- C9 counterexample: a call that omits the duration uses the Python
default `months=12`, so the inserted row's expires_at is
now + 12*30 days = 31104000 seconds past epoch 0 — not null, refuting the
claim's "duration omitted gives a null expires_at". -/
theorem create_license_omitted_months_counterexample :
    ((create_license [] "acme" "Acme Corp" "standard"
        create_license_months_default 0 "HL-NEW").2.map License.expires_at)
      = [some 31104000] ∧
    ((create_license [] "acme" "Acme Corp" "standard"
        create_license_months_default 0 "HL-NEW").2.map License.expires_at)
      ≠ [(none : Option Nat)] := by
  exact ⟨rfl, by decide⟩

/-- C9 as amended: a positive duration m gives expires_at exactly
now + m*30 days; a duration supplied as 0 (directly, or via the CLI's
`--months 0` which maps to None) gives a null expires_at; an omitted
duration falls back to the Python default of 12 months, giving
expires_at = now + 360 days; in every case the inserted row has status
'active'. -/
theorem create_license_expiry (licenses : List License)
    (customer_id customer_name plan : String) (now : Nat)
    (new_key : String) :
    licenses.find? (fun l => l.customer_id == customer_id) = none →
    (∀ m, 0 < m →
      create_license licenses customer_id customer_name plan (some m) now
          new_key
        = (.created new_key,
           licenses ++ [⟨new_key, customer_id, customer_name, plan,
                         "active", now, some (now + m * 30 * 86400), none⟩])) ∧
    (create_license licenses customer_id customer_name plan (some 0) now
        new_key
      = (.created new_key,
         licenses ++ [⟨new_key, customer_id, customer_name, plan, "active",
                       now, none, none⟩])) ∧
    (create_license licenses customer_id customer_name plan none now new_key
      = (.created new_key,
         licenses ++ [⟨new_key, customer_id, customer_name, plan, "active",
                       now, none, none⟩])) ∧
    (create_license licenses customer_id customer_name plan
        create_license_months_default now new_key
      = (.created new_key,
         licenses ++ [⟨new_key, customer_id, customer_name, plan, "active",
                       now, some (now + 12 * 30 * 86400), none⟩])) ∧
    cli_months 0 = none ∧
    (∀ m, m ≠ 0 → cli_months m = some m) := by
  intro hf
  refine ⟨?_, ?_, ?_, ?_, rfl, ?_⟩
  · intro m hm
    simp [create_license, hf, Nat.pos_iff_ne_zero.mp hm]
  · simp [create_license, hf]
  · simp [create_license, hf]
  · simp [create_license, hf, create_license_months_default]
  · intro m hm
    simp [cli_months, hm]

/-- Witness for the amended C9: a 6-month license created at time 100
expires at 100 + 6*30*86400 = 15552100, and a CLI duration of 0 stores a
null expires_at. -/
theorem create_license_expiry_witness :
    create_license [] "acme" "Acme Corp" "pro" (some 6) 100 "HL-NEW"
      = (.created "HL-NEW",
         [⟨"HL-NEW", "acme", "Acme Corp", "pro", "active", 100,
           some 15552100, none⟩]) ∧
    create_license [] "acme" "Acme Corp" "pro" (cli_months 0) 100 "HL-NEW"
      = (.created "HL-NEW",
         [⟨"HL-NEW", "acme", "Acme Corp", "pro", "active", 100,
           none, none⟩]) := by
  have h := create_license_expiry [] "acme" "Acme Corp" "pro" 100 "HL-NEW" rfl
  exact ⟨h.1 6 (by decide), h.2.2.1⟩

/-- Each byte drawn by the token contributes exactly two hex digits, so a
token over n bytes has 2n characters. -/
theorem token_hex_upper_length (bytes : List Nat) :
    (token_hex_upper bytes).length = 2 * bytes.length := by
  induction bytes with
  | nil => rfl
  | cons b bs ih =>
    show (byteHexUpper b ++ (bs.map byteHexUpper).flatten).length
        = 2 * (bs.length + 1)
    have ih' : ((bs.map byteHexUpper).flatten).length = 2 * bs.length := ih
    simp [byteHexUpper, ih']
    omega

/-- C3: `secrets.token_hex(4)` yields eight hex characters (two per
byte), so every generated key has four groups of eight uppercase hex
digits, not four — e.g. the all-zero draw yields
HL-00000000-00000000-00000000-00000000 — contradicting the claimed
format HL-XXXX-XXXX-XXXX-XXXX and the source's own format comment. -/
theorem generate_license_key_eight_hex_groups :
    generate_license_key [0, 0, 0, 0] [0, 0, 0, 0] [0, 0, 0, 0] [0, 0, 0, 0]
      = "HL-00000000-00000000-00000000-00000000" ∧
    (token_hex_upper [0, 0, 0, 0]).length = 8 ∧
    (∀ b1 b2 b3 b4 : Nat,
      (token_hex_upper [b1, b2, b3, b4]).length = 8) := by
  refine ⟨rfl, rfl, ?_⟩
  intro b1 b2 b3 b4
  rw [token_hex_upper_length]
  rfl

/-- C10: verify_master_admin accepts exactly when the supplied username
equals the configured admin username and the supplied password equals the
configured admin password, returning the username; in every other case it
raises HTTP 401 with detail "Incorrect credentials" and a
WWW-Authenticate: Basic header.  (The dependency reads no table and
writes nothing: it is a pure comparison, as its embedding shows.) -/
theorem verify_master_admin_iff (adminUsername adminPassword : String)
    (c : HTTPBasicCredentials) :
    (verify_master_admin adminUsername adminPassword c = .ok c.username ↔
      c.username = adminUsername ∧ c.password = adminPassword) ∧
    (¬ (c.username = adminUsername ∧ c.password = adminPassword) →
      verify_master_admin adminUsername adminPassword c
        = .httpError 401 "Incorrect credentials" "Basic") := by
  by_cases hu : c.username = adminUsername <;>
    by_cases hp : c.password = adminPassword <;>
    simp [verify_master_admin, compare_digest, hu, hp]

/-- Witness for C10: the default configured credentials are accepted and
a wrong password is rejected with the 401 challenge. -/
theorem verify_master_admin_iff_witness :
    verify_master_admin "admin" "changeme123" ⟨"admin", "changeme123"⟩
      = AuthResult.ok "admin" ∧
    verify_master_admin "admin" "changeme123" ⟨"admin", "wrong"⟩
      = AuthResult.httpError 401 "Incorrect credentials" "Basic" := by
  constructor
  · exact (verify_master_admin_iff "admin" "changeme123"
      ⟨"admin", "changeme123"⟩).1.mpr ⟨rfl, rfl⟩
  · exact (verify_master_admin_iff "admin" "changeme123"
      ⟨"admin", "wrong"⟩).2 (by decide)
